import Mathlib

/-!
Shallow embedding of the carpool service core (booking state machine,
trip ranking engine, route estimator, live-location broadcast hub),
translated from `models.py`, `requests.py`, `crud.py`, `geo.py` and
`websocket_manager.py`, together with theorems checking the specification
claims against it.

Numbers: Python floats are modelled as exact rationals (ℚ), Python ints as
ℤ/ℕ.  Database rows are lists of records; SQLAlchemy `scalar_one_or_none`
on a filtered select is `List.find?`, `IN`-filtered existence checks are
`List.any`, inserts are appends, ORM row mutation is a `List.map` that
rewrites the matched row.  `raise ValueError(...)` is `Except.error` with a
constructor per distinct message.  External collaborators that the code
calls (the haversine float math of `geo.haversine`, the Yandex routing
provider) enter as explicit function/value parameters.
-/

namespace Carpool

/-- `models.Trip` (the columns the core logic reads or writes). -/
structure Trip where
  id : Nat
  driver_id : Nat
  trip_type : String
  point : String
  point_lat : Option ℚ
  point_lon : Option ℚ
  departure_time : ℚ
  seats_total : Int
  seats_available : Int
  price : Int
  status : String
  max_deviation_km : Int
  deriving Repr, DecidableEq

/-- `models.Booking` (the columns the core logic reads or writes). -/
structure Booking where
  id : Nat
  trip_id : Nat
  passenger_id : Nat
  status : String
  passenger_lat : Option ℚ
  passenger_lon : Option ℚ
  deriving Repr, DecidableEq

/-- The trips and bookings tables. -/
structure DB where
  trips : List Trip
  bookings : List Booking
  deriving Repr, DecidableEq

/-- One constructor per distinct `ValueError` raised in `requests.py`. -/
inductive BookingError where
  | TripUnavailable      -- "Поездка не найдена или нет свободных мест"
  | DuplicateBooking     -- "Вы уже подали заявку на эту поездку"
  | NotFound             -- "Бронирование не найдено или у вас нет прав"
  | InvalidTransition    -- "Статус уже изменен"
  deriving Repr, DecidableEq

/-- `requests.create_booking`: select the trip by id with status "active";
fail if absent or out of seats; fail on an existing pending/confirmed
booking of the same passenger; otherwise insert a new pending booking.
`newId` stands for the autoincrement primary key of the inserted row. -/
def create_booking (db : DB) (tripId passengerId : Nat)
    (passenger_lat passenger_lon : Option ℚ) (newId : Nat) :
    Except BookingError DB :=
  match db.trips.find? (fun t => t.id == tripId && t.status == "active") with
  | none => .error .TripUnavailable
  | some trip =>
    if trip.seats_available ≤ 0 then
      .error .TripUnavailable
    else if db.bookings.any (fun b =>
        b.trip_id == tripId && b.passenger_id == passengerId &&
        (b.status == "pending" || b.status == "confirmed")) then
      .error .DuplicateBooking
    else
      .ok { db with bookings := db.bookings ++
        [{ id := newId, trip_id := tripId, passenger_id := passengerId,
           status := "pending",
           passenger_lat := passenger_lat, passenger_lon := passenger_lon }] }

/-- The `join(Trip)` authorization condition of `update_booking_status`:
some trip row has this booking's `trip_id` and is owned by `driverId`. -/
def driverOwnsTripOf (db : DB) (b : Booking) (driverId : Nat) : Bool :=
  db.trips.any (fun t => t.id == b.trip_id && t.driver_id == driverId)

/-- The seat bookkeeping `update_booking_status` performs on the trip row
when a booking is confirmed: decrement `seats_available`; if it drops to
`<= 0`, set the trip status to "filled". -/
def confirmSeatUpdate (t : Trip) : Trip :=
  let t1 := { t with seats_available := t.seats_available - 1 }
  if t1.seats_available ≤ 0 then { t1 with status := "filled" } else t1

/-- `requests.update_booking_status`: select the booking joined with its
trip filtered by `Trip.driver_id == driver_id`; reject a booking that is
not pending; write the new status; if the new status is "confirmed",
additionally run the seat bookkeeping on the trip row. -/
def update_booking_status (db : DB) (bookingId driverId : Nat)
    (newStatus : String) : Except BookingError DB :=
  match db.bookings.find? (fun b =>
      b.id == bookingId && driverOwnsTripOf db b driverId) with
  | none => .error .NotFound
  | some booking =>
    if booking.status != "pending" then
      .error .InvalidTransition
    else
      let newBookings := db.bookings.map (fun b =>
        if b.id == bookingId then { b with status := newStatus } else b)
      if newStatus == "confirmed" then
        .ok { trips := db.trips.map (fun t =>
                if t.id == booking.trip_id then confirmSeatUpdate t else t),
              bookings := newBookings }
      else
        .ok { db with bookings := newBookings }

/-- Number of bookings of a trip currently in status "confirmed". -/
def confirmedCount (db : DB) (tripId : Nat) : Nat :=
  (db.bookings.filter (fun b =>
    b.trip_id == tripId && b.status == "confirmed")).length

/-- The trip row with a given id. -/
def lookupTrip (db : DB) (tripId : Nat) : Option Trip :=
  db.trips.find? (fun t => t.id == tripId)

/-- A trip with a single seat. -/
def overbookTrip : Trip :=
  { id := 1, driver_id := 7, trip_type := "to_campus", point := "A",
    point_lat := some 43.1, point_lon := some 131.95,
    departure_time := 100, seats_total := 1, seats_available := 1,
    price := 100, status := "active", max_deviation_km := 3 }

/-- Sequential run: two passengers request the single-seat trip while it is
still active, then the driver confirms both requests. -/
def overbookSeq : Except BookingError DB :=
  let db0 : DB := { trips := [overbookTrip], bookings := [] }
  do
    let d1 ← create_booking db0 1 10 none none 100
    let d2 ← create_booking d1 1 11 none none 101
    let d3 ← update_booking_status d2 100 7 "confirmed"
    update_booking_status d3 101 7 "confirmed"

/-- A one-trip database with a pending booking and two free seats, used to
instantiate the booking-transition theorems. -/
def trPend : Trip :=
  { id := 1, driver_id := 7, trip_type := "to_campus", point := "A",
    point_lat := none, point_lon := none, departure_time := 50,
    seats_total := 3, seats_available := 2, price := 100,
    status := "active", max_deviation_km := 3 }

def bPend : Booking :=
  { id := 5, trip_id := 1, passenger_id := 9, status := "pending",
    passenger_lat := none, passenger_lon := none }

def dbPend : DB := { trips := [trPend], bookings := [bPend] }

/-- A trip that is out of seats (`seats_available = 0`, status "filled")
while a pending booking remains — the shape of the state the C1 trace
reaches just before its second confirmation. -/
def trOverC2 : Trip :=
  { id := 1, driver_id := 7, trip_type := "to_campus", point := "A",
    point_lat := none, point_lon := none, departure_time := 50,
    seats_total := 1, seats_available := 0, price := 100,
    status := "filled", max_deviation_km := 3 }

def dbOverC2 : DB := { trips := [trOverC2], bookings := [bPend] }

/-! ### Trip ranking engine (`crud.get_nearby_trips`)

The haversine float math (`geo.haversine`, transcendental) and the routed
travel durations `get_route` returns (network provider plus cache) enter
as explicit function parameters `hav` and `dur`; everything the Python
code computes around them — candidate filtering, Python truthiness of the
optional coordinates, the deviation formula, `round`, the score and the
stable sort — is embedded exactly. -/

/-- Python's `round`: banker's rounding (round half to even) to an
integer. -/
def roundHalfEven (q : ℚ) : ℤ :=
  let f : ℤ := Int.fdiv q.num (q.den : ℤ)
  let r : ℚ := q - (f : ℚ)
  if r < 1/2 then f
  else if 1/2 < r then f + 1
  else if f % 2 = 0 then f else f + 1

/-- Python's `round(q, nd)`: banker's rounding to `nd` decimal digits. -/
def roundPy (q : ℚ) (nd : Nat) : ℚ :=
  (roundHalfEven (q * 10 ^ nd) : ℚ) / 10 ^ nd

/-- The fixed campus coordinates of `crud.get_nearby_trips` (ДВФУ). -/
def CAMPUS_LAT : ℚ := 43.0245

def CAMPUS_LON : ℚ := 131.8927

/-- A trip returned by the ranking engine, carrying the transient
`distance_km` / `deviation_minutes` fields the Python code attaches to
the ORM object. -/
structure ScoredTrip where
  trip : Trip
  distance_km : ℚ
  deviation_minutes : ℚ
  deriving Repr, DecidableEq

/-- The SQL `where` clauses of the candidate query: active, of the
requested type, seats left, departing in the future and inside the
optional time window. -/
def tripFilter (trip_type : String) (now : ℚ)
    (time_from time_to : Option ℚ) (t : Trip) : Bool :=
  t.status == "active" && t.trip_type == trip_type &&
  decide (0 < t.seats_available) && decide (now ≤ t.departure_time) &&
  (match time_from with
   | some x => decide (x ≤ t.departure_time)
   | none => true) &&
  (match time_to with
   | some x => decide (t.departure_time ≤ x)
   | none => true)

/-- One iteration of the enrichment loop.  `if trip.point_lat and
trip.point_lon` is Python truthiness: `None` and `0.0` are both falsy, and
a falsy coordinate makes the distance infinite, which always exceeds
`max_distance_km`.  For a `from_campus` search the three routed durations
give the detour deviation, filtered against `max_deviation_minutes`;
otherwise the deviation is 0.  The kept trip carries `round(distance, 1)`
and `round(deviation, 0)`. -/
def enrichTrip (hav dur : ℚ → ℚ → ℚ → ℚ → ℚ) (lat lon : ℚ)
    (trip_type : String) (max_distance_km max_deviation_minutes : ℚ)
    (t : Trip) : Option ScoredTrip :=
  match t.point_lat with
  | none => none
  | some plat =>
    match t.point_lon with
    | none => none
    | some plon =>
      if plat = 0 ∨ plon = 0 then none
      else
        let distance := hav lat lon plat plon
        if max_distance_km < distance then none
        else if trip_type == "from_campus" then
          let durationDirect := dur CAMPUS_LAT CAMPUS_LON plat plon
          let durationViaPassenger := dur CAMPUS_LAT CAMPUS_LON lat lon
          let durationPassengerToPoint := dur lat lon plat plon
          let deviationMinutes :=
            durationViaPassenger + durationPassengerToPoint - durationDirect
          if max_deviation_minutes < deviationMinutes then none
          else some ⟨t, roundPy distance 1, roundPy deviationMinutes 0⟩
        else some ⟨t, roundPy distance 1, roundPy 0 0⟩

/-- The filtered, enriched candidate list in input order (the state of
`enriched_trips` just before the final sort). -/
def nearbyEnriched (hav dur : ℚ → ℚ → ℚ → ℚ → ℚ) (trips : List Trip)
    (now lat lon : ℚ) (trip_type : String)
    (max_distance_km max_deviation_minutes : ℚ)
    (time_from time_to : Option ℚ) : List ScoredTrip :=
  (trips.filter (tripFilter trip_type now time_from time_to)).filterMap
    (enrichTrip hav dur lat lon trip_type max_distance_km
      max_deviation_minutes)

/-- The sort key `t.distance_km * 0.7 + t.deviation_minutes * 0.3`. -/
def scoreOf (s : ScoredTrip) : ℚ :=
  s.distance_km * 0.7 + s.deviation_minutes * 0.3

/-- The comparison the ascending-by-key sort induces. -/
def scoreLe (a b : ScoredTrip) : Bool := decide (scoreOf a ≤ scoreOf b)

/-- `crud.get_nearby_trips`: filter, enrich, then stable-sort ascending by
score (Python's `list.sort` is stable; `List.mergeSort` is its model). -/
def get_nearby_trips (hav dur : ℚ → ℚ → ℚ → ℚ → ℚ) (trips : List Trip)
    (now lat lon : ℚ) (trip_type : String)
    (max_distance_km max_deviation_minutes : ℚ)
    (time_from time_to : Option ℚ) : List ScoredTrip :=
  (nearbyEnriched hav dur trips now lat lon trip_type max_distance_km
    max_deviation_minutes time_from time_to).mergeSort scoreLe

/-- A distance oracle that always answers 0 km (it agrees with the real
haversine whenever the two points coincide). -/
def havZero : ℚ → ℚ → ℚ → ℚ → ℚ := fun _ _ _ _ => 0

/-- A routed-duration oracle that always answers 0 minutes. -/
def durZero : ℚ → ℚ → ℚ → ℚ → ℚ := fun _ _ _ _ => 0

/-- A routed-duration oracle that always answers half a minute. -/
def durHalf : ℚ → ℚ → ℚ → ℚ → ℚ := fun _ _ _ _ => 1/2

/-- An active matching trip whose destination latitude is the float `0.0`:
the coordinates are present, but Python truthiness treats them as
missing. -/
def tripZeroLat : Trip :=
  { id := 1, driver_id := 2, trip_type := "to_campus", point := "X",
    point_lat := some 0, point_lon := some (1319/10),
    departure_time := 10, seats_total := 3, seats_available := 3,
    price := 100, status := "active", max_deviation_km := 3 }

/-- A `from_campus` trip with nonzero coordinates, matching everything. -/
def tripC6 : Trip :=
  { id := 1, driver_id := 2, trip_type := "from_campus", point := "X",
    point_lat := some 43.1, point_lon := some 131.95,
    departure_time := 10, seats_total := 3, seats_available := 3,
    price := 100, status := "active", max_deviation_km := 3 }

/-! ### Route estimator (`geo.get_route`)

The external routing provider's reply for the requested pair enters as a
parameter: `none` models a failed or malformed response (missing
`routes`/`distance`/`duration`/`polyline` keys — the code's
`except (KeyError, IndexError)`), `some r` a well-formed one.  The
haversine used by the fallback stays the oracle `hav`.  State threading:
the route cache is passed in and the (possibly extended) cache is
returned alongside the result triple. -/

/-- A row of `models.RouteCache`. -/
structure RouteCacheEntry where
  from_lat : ℚ
  from_lon : ℚ
  to_lat : ℚ
  to_lon : ℚ
  distance_km : ℚ
  duration_minutes : ℚ
  polyline : Option String
  deriving Repr, DecidableEq

/-- A well-formed provider route: `distance` in meters, `duration` in
seconds, and a polyline. -/
structure ProviderRoute where
  distance : ℚ
  duration : ℚ
  polyline : String
  deriving Repr, DecidableEq

/-- The cache-key match of `get_route`: exact equality on the four
coordinates. -/
def routeCacheKey (from_lat from_lon to_lat to_lon : ℚ)
    (e : RouteCacheEntry) : Bool :=
  decide (e.from_lat = from_lat) && decide (e.from_lon = from_lon) &&
  decide (e.to_lat = to_lat) && decide (e.to_lon = to_lon)

/-- `geo.get_route`: return the cached triple on a cache hit; otherwise
use the provider response when well-formed, or fall back to the
straight-line estimate `distance_km = haversine(...)`,
`duration_minutes = distance_km * 2`, `polyline = None`; either way the
freshly computed triple is inserted into the cache. -/
def get_route (hav : ℚ → ℚ → ℚ → ℚ → ℚ) (provider : Option ProviderRoute)
    (cache : List RouteCacheEntry) (from_lat from_lon to_lat to_lon : ℚ) :
    (ℚ × ℚ × Option String) × List RouteCacheEntry :=
  match cache.find? (routeCacheKey from_lat from_lon to_lat to_lon) with
  | some cached =>
    ((cached.distance_km, cached.duration_minutes, cached.polyline), cache)
  | none =>
    let r : ℚ × ℚ × Option String :=
      match provider with
      | some route => (route.distance / 1000, route.duration / 60,
          some route.polyline)
      | none =>
        let distance_km := hav from_lat from_lon to_lat to_lon
        (distance_km, distance_km * 2, none)
    (r, cache ++
      [RouteCacheEntry.mk from_lat from_lon to_lat to_lon r.1 r.2.1 r.2.2])

/-! ### Live location broadcast hub (`websocket_manager.ConnectionManager`)

Connections are identified by numbers; the Python dict
`trip_id -> list of websockets` is an association list with dict update
semantics; `list.remove` is `removeFirst`, whose `none` result models the
`ValueError` Python raises when the element is absent. -/

structure ConnectionManager where
  trip_connections : List (Nat × List Nat)
  deriving Repr, DecidableEq

/-- `trip_id in self.trip_connections`. -/
def hasKey (m : ConnectionManager) (t : Nat) : Bool :=
  m.trip_connections.any (fun p => p.1 == t)

/-- `self.trip_connections[t]`, as an `Option`. -/
def lookupConns (m : ConnectionManager) (t : Nat) : Option (List Nat) :=
  (m.trip_connections.find? (fun p => p.1 == t)).map (fun p => p.2)

/-- `self.trip_connections[t] = l` (dict write: replace or insert). -/
def setConns (m : ConnectionManager) (t : Nat) (l : List Nat) :
    ConnectionManager :=
  if hasKey m t then
    ⟨m.trip_connections.map (fun p => if p.1 == t then (t, l) else p)⟩
  else
    ⟨m.trip_connections ++ [(t, l)]⟩

/-- `del self.trip_connections[t]`. -/
def delKey (m : ConnectionManager) (t : Nat) : ConnectionManager :=
  ⟨m.trip_connections.filter (fun p => !(p.1 == t))⟩

/-- `ConnectionManager.connect`: ensure the key exists with `[]`, then
append the connection (`self.trip_connections[trip_id].append(websocket)`).
The `websocket.accept()` network call has no hub-state effect. -/
def connect (m : ConnectionManager) (c : Nat) (t : Nat) :
    ConnectionManager :=
  let m1 := if hasKey m t then m else setConns m t []
  setConns m1 t (((lookupConns m1 t).getD []) ++ [c])

/-- Python `list.remove`: delete the first occurrence, or fail
(`ValueError`) when the element is absent. -/
def removeFirst (l : List Nat) (c : Nat) : Option (List Nat) :=
  match l with
  | [] => none
  | x :: xs =>
    if x == c then some xs
    else (removeFirst xs c).map (fun ys => x :: ys)

/-- `ConnectionManager.disconnect`: when the trip has an entry, remove
the connection from its list and prune the entry if the list became
empty; otherwise do nothing.  `none` models the uncaught `ValueError`
of `list.remove` on an absent connection. -/
def disconnect (m : ConnectionManager) (c : Nat) (t : Nat) :
    Option ConnectionManager :=
  if hasKey m t then
    match removeFirst ((lookupConns m t).getD []) c with
    | none => none
    | some l =>
      some (if l.isEmpty then delKey m t else setConns m t l)
  else
    some m

/-- The connections `broadcast_to_trip` iterates over (empty when the
trip has no entry). -/
def broadcastTargets (m : ConnectionManager) (t : Nat) : List Nat :=
  if hasKey m t then (lookupConns m t).getD [] else []

/-- Whether a `reportLocation` broadcast for trip `t` delivers the event
to connection `c` (send failures of other sockets are swallowed and do
not affect delivery to `c`). -/
def deliversTo (m : ConnectionManager) (t : Nat) (c : Nat) : Bool :=
  (broadcastTargets m t).contains c

/-- The hub with no subscriptions. -/
def emptyHub : ConnectionManager := ⟨[]⟩

/-- C1: "For every trip with seats_total = N, in every state reachable by
any sequence of create_booking and update_booking_status(confirmed)
operations, the number of bookings that have ever reached status
'confirmed' is at most N and the trip's seats_available is never
negative."  The code violates this: on a trip with `seats_total = 1` two
distinct passengers can both create pending bookings (creation does not
reserve a seat), and the driver can then confirm both — the confirm path
checks only that the booking is pending, never that a seat is left — so
the run below ends with 2 confirmed bookings and `seats_available = -1`. -/
theorem C1_seat_invariant_violated :
    overbookSeq.toOption.map (fun d =>
      (confirmedCount d 1,
       (lookupTrip d 1).map (fun t => (t.seats_total, t.seats_available))))
    = some (2, some (1, -1)) := by decide

/-! ### Helper lemmas about `List.find?` (row lookup) -/

/-- `find?` commutes with a row update that does not change the looked-up
column. -/
theorem find?_map_eq {α : Type} (l : List α) (f : α → α) (p : α → Bool)
    (hp : ∀ a, p (f a) = p a) :
    (l.map f).find? p = (l.find? p).map f := by
  have h : (p ∘ f) = p := funext hp
  rw [List.find?_map, h]

/-- Strengthening the `find?` filter with a condition the found row meets
does not change the found row. -/
theorem find?_and_right {α : Type} (l : List α) (p q : α → Bool) (b : α)
    (hf : l.find? p = some b) (hq : q b = true) :
    l.find? (fun x => p x && q x) = some b := by
  induction l with
  | nil => simp at hf
  | cons a l ih =>
    cases hpa : p a with
    | true =>
      rw [List.find?_cons_of_pos _ hpa] at hf
      injection hf with h
      subst h
      exact List.find?_cons_of_pos _ (by simp [hpa, hq])
    | false =>
      rw [List.find?_cons_of_neg _ (by simp [hpa])] at hf
      rw [List.find?_cons_of_neg _ (by simp [hpa])]
      exact ih hf

/-- The seat bookkeeping written as a single record update. -/
theorem confirmSeatUpdate_eq (t : Trip) :
    confirmSeatUpdate t =
      { t with seats_available := t.seats_available - 1,
               status := if t.seats_available - 1 ≤ 0 then "filled"
                         else t.status } := by
  unfold confirmSeatUpdate
  by_cases h : t.seats_available - 1 ≤ 0 <;> simp [h]

theorem confirmSeatUpdate_id (t : Trip) : (confirmSeatUpdate t).id = t.id := by
  unfold confirmSeatUpdate
  by_cases h : t.seats_available - 1 ≤ 0 <;> simp [h]

/-- Under the hypotheses shared by the booking-transition claims, the
joined booking lookup of `update_booking_status` returns the booking
found by plain id lookup. -/
theorem update_join_find (db : DB) (bookingId driverId : Nat) (b : Booking)
    (tr : Trip)
    (hb : db.bookings.find? (fun x => x.id == bookingId) = some b)
    (ht : db.trips.find? (fun t => t.id == b.trip_id) = some tr)
    (hdr : tr.driver_id = driverId) :
    db.bookings.find?
      (fun x => x.id == bookingId && driverOwnsTripOf db x driverId)
      = some b := by
  have htid : tr.id = b.trip_id := by simpa using List.find?_some ht
  have hq : driverOwnsTripOf db b driverId = true := by
    unfold driverOwnsTripOf
    rw [List.any_eq_true]
    exact ⟨tr, List.mem_of_find?_eq_some ht, by simp [htid, hdr]⟩
  exact find?_and_right _ _ _ _ hb hq

/-! ### C2 -/

/-- C2 (amended): confirming a pending booking whose trip the driver owns
decrements the trip's `seats_available` by exactly 1 together with the
status write and sets the trip status to "filled" exactly when the
resulting count is ≤ 0 (otherwise the trip status is unchanged); a
transition to "rejected" leaves the trips table untouched; and on a
booking that is not pending the call fails with `InvalidTransition` for
every requested status. -/
theorem C2_update_status_spec
    (db : DB) (bookingId driverId : Nat) (b : Booking) (tr : Trip)
    (hb : db.bookings.find? (fun x => x.id == bookingId) = some b)
    (ht : db.trips.find? (fun t => t.id == b.trip_id) = some tr)
    (hdr : tr.driver_id = driverId) :
    (b.status = "pending" →
      ∃ db', update_booking_status db bookingId driverId "confirmed" = .ok db' ∧
        db'.bookings.find? (fun x => x.id == bookingId)
          = some { b with status := "confirmed" } ∧
        db'.trips.find? (fun t => t.id == b.trip_id)
          = some { tr with seats_available := tr.seats_available - 1,
                           status := if tr.seats_available - 1 ≤ 0 then "filled"
                                     else tr.status }) ∧
    (b.status = "pending" →
      ∃ db', update_booking_status db bookingId driverId "rejected" = .ok db' ∧
        db'.trips = db.trips ∧
        db'.bookings.find? (fun x => x.id == bookingId)
          = some { b with status := "rejected" }) ∧
    (b.status ≠ "pending" →
      ∀ s, update_booking_status db bookingId driverId s
        = .error .InvalidTransition) := by
  have hjoin := update_join_find db bookingId driverId b tr hb ht hdr
  have hbid : b.id = bookingId := by simpa using List.find?_some hb
  have htid : tr.id = b.trip_id := by simpa using List.find?_some ht
  refine ⟨?_, ?_, ?_⟩
  · intro hpend
    refine ⟨DB.mk
      (db.trips.map (fun t =>
        if t.id == b.trip_id then confirmSeatUpdate t else t))
      (db.bookings.map (fun x =>
        if x.id == bookingId then { x with status := "confirmed" } else x)),
      ?_, ?_, ?_⟩
    · unfold update_booking_status
      rw [hjoin]
      simp only [hpend, bne_self_eq_false, Bool.false_eq_true, if_false,
        beq_self_eq_true, if_true]
    · show (db.bookings.map (fun x =>
        if x.id == bookingId then { x with status := "confirmed" } else x)).find?
          (fun x => x.id == bookingId) = _
      rw [find?_map_eq _ _ _ (fun x => by by_cases h : (x.id == bookingId) = true <;> simp [h]),
        hb]
      simp [hbid]
    · show (db.trips.map (fun t =>
        if t.id == b.trip_id then confirmSeatUpdate t else t)).find?
          (fun t => t.id == b.trip_id) = _
      rw [find?_map_eq _ _ _ (fun t => by
          by_cases h : (t.id == b.trip_id) = true <;>
            simp [h, confirmSeatUpdate_id]),
        ht]
      simp [htid, confirmSeatUpdate_eq]
  · intro hpend
    refine ⟨DB.mk db.trips
      (db.bookings.map (fun x =>
        if x.id == bookingId then { x with status := "rejected" } else x)),
      ?_, rfl, ?_⟩
    · unfold update_booking_status
      rw [hjoin]
      simp only [hpend, bne_self_eq_false, Bool.false_eq_true, if_false]
      rfl
    · show (db.bookings.map (fun x =>
        if x.id == bookingId then { x with status := "rejected" } else x)).find?
          (fun x => x.id == bookingId) = _
      rw [find?_map_eq _ _ _ (fun x => by by_cases h : (x.id == bookingId) = true <;> simp [h]),
        hb]
      simp [hbid]
  · intro hpend s
    unfold update_booking_status
    rw [hjoin]
    simp only [if_pos (bne_iff_ne.mpr hpend)]

/-- Witness for C2: the amended transition spec at a concrete database. -/
theorem C2_update_status_spec_witness :
    (dbPend.bookings.find? (fun x => x.id == 5) = some bPend ∧
      dbPend.trips.find? (fun t => t.id == bPend.trip_id) = some trPend ∧
      trPend.driver_id = 7) ∧
    (bPend.status = "pending" →
      ∃ db', update_booking_status dbPend 5 7 "confirmed" = .ok db' ∧
        db'.bookings.find? (fun x => x.id == 5)
          = some { bPend with status := "confirmed" } ∧
        db'.trips.find? (fun t => t.id == bPend.trip_id)
          = some { trPend with
              seats_available := trPend.seats_available - 1,
              status := if trPend.seats_available - 1 ≤ 0 then "filled"
                        else trPend.status }) :=
  ⟨⟨by decide, by decide, rfl⟩,
   (C2_update_status_spec dbPend 5 7 bPend trPend (by decide) (by decide)
      rfl).1⟩

/-- Counterexample to C2 as stated: confirming the remaining pending
booking of a trip that already has `seats_available = 0` sets the trip
status to "filled" although the resulting count is -1, not 0 — the code
tests `<= 0`, not `== 0`. -/
theorem C2_filled_at_negative_count :
    (update_booking_status dbOverC2 5 7 "confirmed").toOption.bind
      (fun d => (lookupTrip d 1).map (fun t => (t.status, t.seats_available)))
    = some ("filled", -1) := by decide

/-! ### C10 -/

/-- C10: `update_booking_status` does not restrict the new status value —
for any string `s` other than "confirmed", on a pending booking whose
trip the acting driver owns, it sets the booking status to `s` and
leaves the trips table (seat count and trip status included) unchanged. -/
theorem C10_arbitrary_status_passthrough
    (db : DB) (bookingId driverId : Nat) (b : Booking) (tr : Trip)
    (s : String)
    (hb : db.bookings.find? (fun x => x.id == bookingId) = some b)
    (ht : db.trips.find? (fun t => t.id == b.trip_id) = some tr)
    (hdr : tr.driver_id = driverId)
    (hpend : b.status = "pending")
    (hs : s ≠ "confirmed") :
    ∃ db', update_booking_status db bookingId driverId s = .ok db' ∧
      db'.trips = db.trips ∧
      db'.bookings.find? (fun x => x.id == bookingId)
        = some { b with status := s } := by
  have hjoin := update_join_find db bookingId driverId b tr hb ht hdr
  have hbid : b.id = bookingId := by simpa using List.find?_some hb
  refine ⟨DB.mk db.trips
    (db.bookings.map (fun x =>
      if x.id == bookingId then { x with status := s } else x)),
    ?_, rfl, ?_⟩
  · unfold update_booking_status
    rw [hjoin]
    simp only [hpend, bne_self_eq_false, Bool.false_eq_true, if_false]
    rw [if_neg (show ¬((s == "confirmed") = true) by simp [hs])]
  · show (db.bookings.map (fun x =>
      if x.id == bookingId then { x with status := s } else x)).find?
        (fun x => x.id == bookingId) = _
    rw [find?_map_eq _ _ _ (fun x => by by_cases h : (x.id == bookingId) = true <;> simp [h]),
      hb]
    simp [hbid]

/-- Witness for C10 with the undocumented status "completed". -/
theorem C10_arbitrary_status_passthrough_witness :
    (bPend.status = "pending" ∧ ("completed" : String) ≠ "confirmed") ∧
    ∃ db', update_booking_status dbPend 5 7 "completed" = .ok db' ∧
      db'.trips = dbPend.trips ∧
      db'.bookings.find? (fun x => x.id == 5)
        = some { bPend with status := "completed" } :=
  ⟨⟨rfl, by decide⟩,
   C10_arbitrary_status_passthrough dbPend 5 7 bPend trPend "completed"
     (by decide) (by decide) rfl rfl (by decide)⟩

/-! ### C3 -/

/-- C3: `create_booking` fails with `TripUnavailable` when the trip is
missing, not active, or has zero available seats; fails with
`DuplicateBooking` when the passenger already holds a pending/confirmed
booking on this trip; otherwise inserts a new pending booking and leaves
the trips table (seat counts included) unchanged.  Stated under the data
model's invariants that trip ids are unique and seat counts nonnegative,
so that "zero available seats" and the code's `<= 0` coincide. -/
theorem C3_create_booking_spec
    (db : DB) (tripId passengerId newId : Nat) (plat plon : Option ℚ)
    (hnodup : (db.trips.map Trip.id).Nodup)
    (hnonneg : ∀ t ∈ db.trips, 0 ≤ t.seats_available) :
    (create_booking db tripId passengerId plat plon newId
        = .error .TripUnavailable ↔
      ¬ ∃ t ∈ db.trips, t.id = tripId ∧ t.status = "active" ∧
        t.seats_available ≠ 0) ∧
    (create_booking db tripId passengerId plat plon newId
        = .error .DuplicateBooking ↔
      ((∃ t ∈ db.trips, t.id = tripId ∧ t.status = "active" ∧
          t.seats_available ≠ 0) ∧
        ∃ bk ∈ db.bookings, bk.trip_id = tripId ∧
          bk.passenger_id = passengerId ∧
          (bk.status = "pending" ∨ bk.status = "confirmed"))) ∧
    (∀ db', create_booking db tripId passengerId plat plon newId = .ok db' →
      db'.trips = db.trips ∧
      db'.bookings = db.bookings ++
        [{ id := newId, trip_id := tripId, passenger_id := passengerId,
           status := "pending", passenger_lat := plat,
           passenger_lon := plon }]) := by
  have hdupiff : db.bookings.any (fun bk =>
      bk.trip_id == tripId && bk.passenger_id == passengerId &&
        (bk.status == "pending" || bk.status == "confirmed")) = true ↔
      ∃ bk ∈ db.bookings, bk.trip_id = tripId ∧
        bk.passenger_id = passengerId ∧
        (bk.status = "pending" ∨ bk.status = "confirmed") := by
    simp [List.any_eq_true, and_assoc]
  cases hfind : db.trips.find? (fun t => t.id == tripId && t.status == "active") with
  | none =>
    have hno : ∀ t ∈ db.trips, ¬(t.id = tripId ∧ t.status = "active") := by
      intro t htm hc
      have := List.find?_eq_none.mp hfind t htm
      simp [hc.1, hc.2] at this
    have hres : create_booking db tripId passengerId plat plon newId
        = .error .TripUnavailable := by
      unfold create_booking
      rw [hfind]
    refine ⟨⟨fun _ => ?_, fun _ => hres⟩, ⟨fun h => ?_, fun h => ?_⟩,
      fun db' h => ?_⟩
    · rintro ⟨t, htm, h1, h2, _⟩
      exact hno t htm ⟨h1, h2⟩
    · rw [hres] at h
      simp at h
    · rcases h with ⟨⟨t, htm, h1, h2, _⟩, _⟩
      exact absurd ⟨h1, h2⟩ (hno t htm)
    · rw [hres] at h
      simp at h
  | some tr =>
    have htrm : tr ∈ db.trips := List.mem_of_find?_eq_some hfind
    have htp : (tr.id = tripId ∧ tr.status = "active") := by
      simpa using List.find?_some hfind
    have huniq : ∀ t ∈ db.trips, t.id = tripId → t = tr := by
      intro t htm h
      exact List.inj_on_of_nodup_map hnodup htm htrm (by rw [h, htp.1])
    by_cases hseat : tr.seats_available ≤ 0
    · have hzero : tr.seats_available = 0 :=
        le_antisymm hseat (hnonneg tr htrm)
      have hres : create_booking db tripId passengerId plat plon newId
          = .error .TripUnavailable := by
        unfold create_booking
        rw [hfind]
        simp [hseat]
      have hnoex : ¬ ∃ t ∈ db.trips, t.id = tripId ∧ t.status = "active" ∧
          t.seats_available ≠ 0 := by
        rintro ⟨t, htm, h1, _, h3⟩
        exact h3 (by rw [huniq t htm h1]; exact hzero)
      refine ⟨⟨fun _ => hnoex, fun _ => hres⟩, ⟨fun h => ?_,
        fun h => absurd h.1 hnoex⟩, fun db' h => ?_⟩
      · rw [hres] at h
        simp at h
      · rw [hres] at h
        simp at h
    · have hpos : 0 < tr.seats_available := lt_of_not_le hseat
      have hex : ∃ t ∈ db.trips, t.id = tripId ∧ t.status = "active" ∧
          t.seats_available ≠ 0 := ⟨tr, htrm, htp.1, htp.2, by omega⟩
      by_cases hdup : db.bookings.any (fun bk =>
          bk.trip_id == tripId && bk.passenger_id == passengerId &&
            (bk.status == "pending" || bk.status == "confirmed")) = true
      · have hres : create_booking db tripId passengerId plat plon newId
            = .error .DuplicateBooking := by
          unfold create_booking
          rw [hfind]
          simp only [if_neg hseat, if_pos hdup]
        refine ⟨⟨fun h => ?_, fun hno => absurd hex hno⟩,
          ⟨fun _ => ⟨hex, hdupiff.mp hdup⟩, fun _ => hres⟩,
          fun db' h => ?_⟩
        · rw [hres] at h
          simp at h
        · rw [hres] at h
          simp at h
      · have hres : create_booking db tripId passengerId plat plon newId
            = .ok (DB.mk db.trips (db.bookings ++
              [{ id := newId, trip_id := tripId, passenger_id := passengerId,
                 status := "pending", passenger_lat := plat,
                 passenger_lon := plon }])) := by
          unfold create_booking
          rw [hfind]
          simp only [if_neg hseat, if_neg hdup]
        refine ⟨⟨fun h => ?_, fun hno => absurd hex hno⟩,
          ⟨fun h => ?_, fun hd => absurd (hdupiff.mpr hd.2) hdup⟩,
          fun db' h => ?_⟩
        · rw [hres] at h
          simp at h
        · rw [hres] at h
          simp at h
        · rw [hres] at h
          injection h with h
          subst h
          exact ⟨rfl, rfl⟩

/-- A database holding one active two-seat trip and one pending booking,
for instantiating the creation spec: passenger 9 already holds booking 5,
passenger 11 is new. -/
theorem C3_create_booking_spec_witness :
    ((dbPend.trips.map Trip.id).Nodup ∧
      ∀ t ∈ dbPend.trips, 0 ≤ t.seats_available) ∧
    (create_booking dbPend 1 11 none none 6 = .error .TripUnavailable ↔
      ¬ ∃ t ∈ dbPend.trips, t.id = 1 ∧ t.status = "active" ∧
        t.seats_available ≠ 0) :=
  ⟨⟨by decide, by decide⟩,
   (C3_create_booking_spec dbPend 1 11 6 none none (by decide)
      (by decide)).1⟩

/-- Inversion: everything that is true of a trip the enrichment loop
keeps. -/
theorem enrichTrip_eq_some {hav dur : ℚ → ℚ → ℚ → ℚ → ℚ} {lat lon : ℚ}
    {ttype : String} {mdist mdev : ℚ} {t : Trip} {s : ScoredTrip}
    (h : enrichTrip hav dur lat lon ttype mdist mdev t = some s) :
    ∃ plat plon, t.point_lat = some plat ∧ t.point_lon = some plon ∧
      plat ≠ 0 ∧ plon ≠ 0 ∧ hav lat lon plat plon ≤ mdist ∧
      s.trip = t ∧ s.distance_km = roundPy (hav lat lon plat plon) 1 ∧
      (ttype = "from_campus" →
        dur CAMPUS_LAT CAMPUS_LON lat lon + dur lat lon plat plon -
          dur CAMPUS_LAT CAMPUS_LON plat plon ≤ mdev ∧
        s.deviation_minutes = roundPy (dur CAMPUS_LAT CAMPUS_LON lat lon +
          dur lat lon plat plon - dur CAMPUS_LAT CAMPUS_LON plat plon) 0) ∧
      (ttype ≠ "from_campus" → s.deviation_minutes = roundPy 0 0) := by
  unfold enrichTrip at h
  rcases hpl : t.point_lat with _ | plat
  · rw [hpl] at h
    exact absurd h (by simp)
  · rw [hpl] at h
    dsimp only at h
    rcases hpo : t.point_lon with _ | plon
    · rw [hpo] at h
      exact absurd h (by simp)
    · rw [hpo] at h
      dsimp only at h
      by_cases hz : plat = 0 ∨ plon = 0
      · rw [if_pos hz] at h
        exact absurd h (by simp)
      · rw [if_neg hz] at h
        push_neg at hz
        by_cases hdist : mdist < hav lat lon plat plon
        · rw [if_pos hdist] at h
          exact absurd h (by simp)
        · rw [if_neg hdist] at h
          refine ⟨plat, plon, rfl, rfl, hz.1, hz.2, le_of_not_lt hdist, ?_⟩
          by_cases hty : ttype = "from_campus"
          · rw [if_pos (by simp [hty])] at h
            by_cases hdev : mdev < dur CAMPUS_LAT CAMPUS_LON lat lon +
                dur lat lon plat plon - dur CAMPUS_LAT CAMPUS_LON plat plon
            · rw [if_pos hdev] at h
              exact absurd h (by simp)
            · rw [if_neg hdev] at h
              injection h with h
              subst h
              exact ⟨rfl, rfl, fun _ => ⟨le_of_not_lt hdev, rfl⟩,
                fun hc => absurd hty hc⟩
          · rw [if_neg (by simp [hty])] at h
            injection h with h
            subst h
            exact ⟨rfl, rfl, fun hc => absurd hc hty, fun _ => rfl⟩

/-- Construction: a candidate meeting all the kept-trip conditions is
enriched to some scored trip. -/
theorem enrichTrip_isSome {hav dur : ℚ → ℚ → ℚ → ℚ → ℚ} {lat lon : ℚ}
    {ttype : String} {mdist mdev : ℚ} {t : Trip} {plat plon : ℚ}
    (hpl : t.point_lat = some plat) (hpo : t.point_lon = some plon)
    (hz1 : plat ≠ 0) (hz2 : plon ≠ 0)
    (hd : hav lat lon plat plon ≤ mdist)
    (hdev : ttype = "from_campus" →
      dur CAMPUS_LAT CAMPUS_LON lat lon + dur lat lon plat plon -
        dur CAMPUS_LAT CAMPUS_LON plat plon ≤ mdev) :
    (enrichTrip hav dur lat lon ttype mdist mdev t).isSome := by
  unfold enrichTrip
  rw [hpl, hpo]
  dsimp only
  rw [if_neg (by tauto)]
  rw [if_neg (not_lt.mpr hd)]
  by_cases hty : ttype = "from_campus"
  · rw [if_pos (by simp [hty])]
    rw [if_neg (not_lt.mpr (hdev hty))]
    rfl
  · rw [if_neg (by simp [hty])]
    rfl

/-- The candidate query's filter, in propositional form. -/
theorem tripFilter_iff (ttype : String) (now : ℚ) (tf tt : Option ℚ)
    (t : Trip) :
    tripFilter ttype now tf tt t = true ↔
      (t.status = "active" ∧ t.trip_type = ttype ∧ 0 < t.seats_available ∧
        now ≤ t.departure_time ∧
        (∀ x, tf = some x → x ≤ t.departure_time) ∧
        (∀ x, tt = some x → t.departure_time ≤ x)) := by
  unfold tripFilter
  cases tf <;> cases tt <;> simp [and_assoc]

/-! ### C4 -/

/-- C4 (amended): the ranking result contains exactly the input trips
that are active, of the requested type, with seats left, departing at or
after `now` and inside the optional time window, whose destination
coordinates are present *and both nonzero* (Python truthiness: a 0.0
coordinate is falsy and treated like a missing one), whose haversine
distance from the passenger is at most `max_distance_km`, and — for
`from_campus` — whose routed deviation is at most
`max_deviation_minutes`. -/
theorem C4_membership_amended (hav dur : ℚ → ℚ → ℚ → ℚ → ℚ)
    (trips : List Trip) (now lat lon : ℚ) (ttype : String)
    (mdist mdev : ℚ) (tf tt : Option ℚ) (t : Trip) :
    (∃ s ∈ get_nearby_trips hav dur trips now lat lon ttype mdist mdev tf tt,
        s.trip = t) ↔
      (t ∈ trips ∧ t.status = "active" ∧ t.trip_type = ttype ∧
        0 < t.seats_available ∧ now ≤ t.departure_time ∧
        (∀ x, tf = some x → x ≤ t.departure_time) ∧
        (∀ x, tt = some x → t.departure_time ≤ x) ∧
        t.point_lat ≠ none ∧ t.point_lon ≠ none ∧
        t.point_lat ≠ some 0 ∧ t.point_lon ≠ some 0 ∧
        hav lat lon (t.point_lat.getD 0) (t.point_lon.getD 0) ≤ mdist ∧
        (ttype = "from_campus" →
          dur CAMPUS_LAT CAMPUS_LON lat lon +
            dur lat lon (t.point_lat.getD 0) (t.point_lon.getD 0) -
            dur CAMPUS_LAT CAMPUS_LON (t.point_lat.getD 0)
              (t.point_lon.getD 0) ≤ mdev)) := by
  unfold get_nearby_trips
  constructor
  · rintro ⟨s, hs, htr⟩
    rw [List.mem_mergeSort] at hs
    unfold nearbyEnriched at hs
    rw [List.mem_filterMap] at hs
    obtain ⟨a, ha, hea⟩ := hs
    obtain ⟨plat, plon, hpl, hpo, hz1, hz2, hd, htrip, -, hfc, -⟩ :=
      enrichTrip_eq_some hea
    have hat : a = t := by rw [← htr, htrip]
    subst hat
    rw [List.mem_filter] at ha
    obtain ⟨hmem, hfil⟩ := ha
    obtain ⟨f1, f2, f3, f4, f5, f6⟩ := (tripFilter_iff _ _ _ _ _).mp hfil
    refine ⟨hmem, f1, f2, f3, f4, f5, f6, by simp [hpl], by simp [hpo],
      by simp [hpl, hz1], by simp [hpo, hz2], ?_, ?_⟩
    · rw [hpl, hpo]
      exact hd
    · intro hty
      rw [hpl, hpo]
      exact (hfc hty).1
  · rintro ⟨hmem, f1, f2, f3, f4, f5, f6, hn1, hn2, hs1, hs2, hd, hdev⟩
    obtain ⟨plat, hpl⟩ := Option.ne_none_iff_exists'.mp hn1
    obtain ⟨plon, hpo⟩ := Option.ne_none_iff_exists'.mp hn2
    rw [hpl] at hd hdev hs1
    rw [hpo] at hd hdev hs2
    simp only [Option.getD_some] at hd hdev
    have hz1 : plat ≠ 0 := by simpa using hs1
    have hz2 : plon ≠ 0 := by simpa using hs2
    have hsome : (enrichTrip hav dur lat lon ttype mdist mdev t).isSome :=
      enrichTrip_isSome hpl hpo hz1 hz2 hd hdev
    obtain ⟨s, hs⟩ := Option.isSome_iff_exists.mp hsome
    refine ⟨s, ?_, ?_⟩
    · rw [List.mem_mergeSort]
      unfold nearbyEnriched
      rw [List.mem_filterMap]
      exact ⟨t, List.mem_filter.mpr ⟨hmem,
        (tripFilter_iff _ _ _ _ _).mpr ⟨f1, f2, f3, f4, f5, f6⟩⟩, hs⟩
    · obtain ⟨-, -, -, -, -, -, -, htrip, -, -, -⟩ := enrichTrip_eq_some hs
      exact htrip

unseal List.merge List.mergeSort in
/-- Counterexample to C4 as stated: the passenger stands exactly at the
trip's destination `(0.0, 131.9)` — coordinates present, distance 0 ≤ 5 —
yet the trip is dropped from the result, because `if trip.point_lat and
trip.point_lon` treats the `0.0` latitude as falsy. -/
theorem C4_zero_coordinate_excluded :
    get_nearby_trips havZero durZero [tripZeroLat] 0 0 (1319/10) "to_campus"
        5 30 none none = [] ∧
      tripZeroLat.status = "active" ∧
      tripZeroLat.trip_type = "to_campus" ∧
      0 < tripZeroLat.seats_available ∧
      (0 : ℚ) ≤ tripZeroLat.departure_time ∧
      tripZeroLat.point_lat ≠ none ∧ tripZeroLat.point_lon ≠ none ∧
      havZero 0 (1319/10) (tripZeroLat.point_lat.getD 0)
        (tripZeroLat.point_lon.getD 0) ≤ 5 := by
  with_unfolding_all decide

/-! ### C5 -/

/-- The comparison `scoreLe` is transitive… -/
theorem scoreLe_trans : ∀ (a b c : ScoredTrip),
    scoreLe a b → scoreLe b c → scoreLe a c := by
  intro a b c h1 h2
  simp only [scoreLe, decide_eq_true_eq] at *
  exact le_trans h1 h2

/-- …and total. -/
theorem scoreLe_total : ∀ (a b : ScoredTrip),
    scoreLe a b || scoreLe b a := by
  intro a b
  simp only [scoreLe, Bool.or_eq_true, decide_eq_true_eq]
  exact le_total _ _

/-- C5: the ranking result is sorted ascending by the score
`distance_km * 0.7 + deviation_minutes * 0.3`; the sort is stable (any
score-ordered pair of the enriched input list keeps its relative order in
the output, so score ties stay in input order); and the function is
deterministic — equal inputs give the equal output. -/
theorem C5_ranking_sorted_stable (hav dur : ℚ → ℚ → ℚ → ℚ → ℚ)
    (trips : List Trip) (now lat lon : ℚ) (ttype : String)
    (mdist mdev : ℚ) (tf tt : Option ℚ) :
    (get_nearby_trips hav dur trips now lat lon ttype mdist mdev
      tf tt).Pairwise (fun a b => scoreOf a ≤ scoreOf b) ∧
    (∀ a b, scoreOf a ≤ scoreOf b →
      [a, b].Sublist (nearbyEnriched hav dur trips now lat lon ttype mdist
        mdev tf tt) →
      [a, b].Sublist (get_nearby_trips hav dur trips now lat lon ttype
        mdist mdev tf tt)) ∧
    get_nearby_trips hav dur trips now lat lon ttype mdist mdev tf tt =
      get_nearby_trips hav dur trips now lat lon ttype mdist mdev tf tt := by
  refine ⟨?_, ?_, rfl⟩
  · unfold get_nearby_trips
    exact List.Pairwise.imp
      (fun h => by simpa [scoreLe, decide_eq_true_eq] using h)
      (List.sorted_mergeSort scoreLe_trans scoreLe_total _)
  · intro a b hab hsub
    unfold get_nearby_trips
    exact List.pair_sublist_mergeSort scoreLe_trans scoreLe_total
      (by simpa [scoreLe, decide_eq_true_eq] using hab) hsub

/-! ### C6 -/

/-- `round(0, 0) = 0`. -/
theorem roundPy_zero : roundPy 0 0 = 0 := by with_unfolding_all decide

/-- For a `to_campus` search the enrichment never consults the routing
oracle. -/
theorem enrichTrip_to_campus_dur (hav dur dur' : ℚ → ℚ → ℚ → ℚ → ℚ)
    (lat lon mdist mdev : ℚ) (t : Trip) :
    enrichTrip hav dur lat lon "to_campus" mdist mdev t =
      enrichTrip hav dur' lat lon "to_campus" mdist mdev t := by
  unfold enrichTrip
  cases hpl : t.point_lat with
  | none => rfl
  | some plat =>
    dsimp only
    cases hpo : t.point_lon with
    | none => rfl
    | some plon =>
      dsimp only
      by_cases hz : plat = 0 ∨ plon = 0
      · rw [if_pos hz, if_pos hz]
      · rw [if_neg hz, if_neg hz]
        by_cases hdist : mdist < hav lat lon plat plon
        · rw [if_pos hdist, if_pos hdist]
        · rw [if_neg hdist, if_neg hdist]
          rw [if_neg (by decide), if_neg (by decide)]

/-- C6 (amended): for a `from_campus` search, every returned trip's
deviation value — computed as (routed campus→passenger) + (routed
passenger→destination) − (routed campus→destination) — is at most
`max_deviation_minutes`, and the attached `deviation_minutes` field is
that value rounded to whole minutes (Python `round(…, 0)`); for a
`to_campus` search the attached deviation is 0 and no route is computed
(the result does not depend on the routing oracle at all). -/
theorem C6_deviation_spec :
    (∀ (hav dur : ℚ → ℚ → ℚ → ℚ → ℚ) (trips : List Trip)
      (now lat lon mdist mdev : ℚ) (tf tt : Option ℚ) s,
      s ∈ get_nearby_trips hav dur trips now lat lon "from_campus" mdist
        mdev tf tt →
      ∃ plat plon, s.trip.point_lat = some plat ∧
        s.trip.point_lon = some plon ∧
        dur CAMPUS_LAT CAMPUS_LON lat lon + dur lat lon plat plon -
          dur CAMPUS_LAT CAMPUS_LON plat plon ≤ mdev ∧
        s.deviation_minutes = roundPy (dur CAMPUS_LAT CAMPUS_LON lat lon +
          dur lat lon plat plon - dur CAMPUS_LAT CAMPUS_LON plat plon) 0) ∧
    (∀ (hav dur : ℚ → ℚ → ℚ → ℚ → ℚ) (trips : List Trip)
      (now lat lon mdist mdev : ℚ) (tf tt : Option ℚ) s,
      s ∈ get_nearby_trips hav dur trips now lat lon "to_campus" mdist
        mdev tf tt →
      s.deviation_minutes = 0) ∧
    (∀ (hav dur dur' : ℚ → ℚ → ℚ → ℚ → ℚ) (trips : List Trip)
      (now lat lon mdist mdev : ℚ) (tf tt : Option ℚ),
      get_nearby_trips hav dur trips now lat lon "to_campus" mdist mdev
        tf tt =
      get_nearby_trips hav dur' trips now lat lon "to_campus" mdist mdev
        tf tt) := by
  refine ⟨?_, ?_, ?_⟩
  · intro hav dur trips now lat lon mdist mdev tf tt s hs
    unfold get_nearby_trips at hs
    rw [List.mem_mergeSort] at hs
    unfold nearbyEnriched at hs
    rw [List.mem_filterMap] at hs
    obtain ⟨a, -, hea⟩ := hs
    obtain ⟨plat, plon, hpl, hpo, -, -, -, htrip, -, hfc, -⟩ :=
      enrichTrip_eq_some hea
    obtain ⟨hle, hround⟩ := hfc rfl
    exact ⟨plat, plon, htrip ▸ hpl, htrip ▸ hpo, hle, hround⟩
  · intro hav dur trips now lat lon mdist mdev tf tt s hs
    unfold get_nearby_trips at hs
    rw [List.mem_mergeSort] at hs
    unfold nearbyEnriched at hs
    rw [List.mem_filterMap] at hs
    obtain ⟨a, -, hea⟩ := hs
    obtain ⟨-, -, -, -, -, -, -, -, -, -, hnc⟩ := enrichTrip_eq_some hea
    rw [hnc (by decide), roundPy_zero]
  · intro hav dur dur' trips now lat lon mdist mdev tf tt
    unfold get_nearby_trips nearbyEnriched
    rw [funext (enrichTrip_to_campus_dur hav dur dur' lat lon mdist mdev)]

unseal List.merge List.mergeSort in
/-- Counterexample to C6 as stated: with routed durations of half a
minute each, the computed deviation is 1/2, but the returned trip's
`deviation_minutes` field is `round(1/2, 0) = 0` ≠ 1/2 — the field holds
the rounded value, not the raw formula value. -/
theorem C6_deviation_rounded :
    (get_nearby_trips havZero durHalf [tripC6] 0 43 (1319/10) "from_campus"
        5 30 none none).map (fun s => s.deviation_minutes) = [0] ∧
      durHalf CAMPUS_LAT CAMPUS_LON 43 (1319/10) +
        durHalf 43 (1319/10) (43.1 : ℚ) (131.95 : ℚ) -
        durHalf CAMPUS_LAT CAMPUS_LON (43.1 : ℚ) (131.95 : ℚ) = 1/2 ∧
      (0 : ℚ) ≠ 1/2 := by
  with_unfolding_all decide

/-- C7: on a cache miss with a failed (or malformed) provider response,
`get_route` returns the haversine distance, a duration of exactly twice
that distance, and no polyline, and appends exactly this fallback triple
to the route cache the same way a provider result is cached. -/
theorem C7_route_fallback (hav : ℚ → ℚ → ℚ → ℚ → ℚ)
    (cache : List RouteCacheEntry) (from_lat from_lon to_lat to_lon : ℚ)
    (hmiss : cache.find? (routeCacheKey from_lat from_lon to_lat to_lon)
      = none) :
    get_route hav none cache from_lat from_lon to_lat to_lon =
      ((hav from_lat from_lon to_lat to_lon,
        hav from_lat from_lon to_lat to_lon * 2, none),
       cache ++
         [RouteCacheEntry.mk from_lat from_lon to_lat to_lon
           (hav from_lat from_lon to_lat to_lon)
           (hav from_lat from_lon to_lat to_lon * 2) none]) := by
  unfold get_route
  rw [hmiss]

/-- Witness for C7: empty cache, failed provider, the coordinates of the
spec's fallback scenario, and a concrete distance oracle. -/
theorem C7_route_fallback_witness :
    (([] : List RouteCacheEntry).find? (routeCacheKey 43 (1319/10) (431/10)
        132) = none) ∧
    get_route havZero none [] 43 (1319/10) (431/10) 132 =
      ((havZero 43 (1319/10) (431/10) 132,
        havZero 43 (1319/10) (431/10) 132 * 2, none),
       [RouteCacheEntry.mk 43 (1319/10) (431/10) 132
         (havZero 43 (1319/10) (431/10) 132)
         (havZero 43 (1319/10) (431/10) 132 * 2) none]) :=
  ⟨rfl, C7_route_fallback havZero [] 43 (1319/10) (431/10) 132 rfl⟩

/-- Replacing the value stored under a present key is found by lookup. -/
theorem find?_map_replace (t : Nat) (l : List Nat)
    (L : List (Nat × List Nat)) (h : L.any (fun p => p.1 == t) = true) :
    (L.map (fun p => if p.1 == t then (t, l) else p)).find?
      (fun p => p.1 == t) = some (t, l) := by
  induction L with
  | nil => simp at h
  | cons p L ih =>
    by_cases hp : (p.1 == t) = true
    · simp only [List.map_cons, if_pos hp]
      exact List.find?_cons_of_pos _ (by simp)
    · simp only [List.map_cons, if_neg hp]
      rw [List.find?_cons_of_neg _ (by exact hp)]
      apply ih
      rw [List.any_cons, Bool.or_eq_true] at h
      exact h.resolve_left hp

/-- Dict write followed by lookup of the same key. -/
theorem lookup_setConns_self (m : ConnectionManager) (t : Nat)
    (l : List Nat) : lookupConns (setConns m t l) t = some l := by
  unfold setConns
  by_cases hk : hasKey m t = true
  · rw [if_pos hk]
    unfold lookupConns
    rw [find?_map_replace t l _ hk]
    rfl
  · rw [if_neg hk]
    unfold lookupConns
    rw [List.find?_append]
    have hk' : ¬(m.trip_connections.any (fun p => p.1 == t) = true) := by
      unfold hasKey at hk
      exact hk
    have hnone : m.trip_connections.find? (fun p => p.1 == t) = none := by
      rw [List.find?_eq_none]
      intro x hx hpx
      exact absurd (List.any_eq_true.mpr ⟨x, hx, by exact hpx⟩) hk'
    rw [hnone]
    simp

/-- A key the dict does not hold looks up to nothing. -/
theorem lookup_none_of_hasKey_false (m : ConnectionManager) (t : Nat)
    (h : hasKey m t = false) : lookupConns m t = none := by
  unfold hasKey at h
  unfold lookupConns
  cases hf : m.trip_connections.find? (fun p => p.1 == t) with
  | none => rfl
  | some p =>
    have hp2 := List.find?_some hf
    have : m.trip_connections.any (fun q => q.1 == t) = true :=
      List.any_eq_true.mpr ⟨p, List.mem_of_find?_eq_some hf, hp2⟩
    rw [h] at this
    cases this

/-- Deleting a key removes it from the dict. -/
theorem hasKey_delKey (m : ConnectionManager) (t : Nat) :
    hasKey (delKey m t) t = false := by
  unfold hasKey delKey
  rw [List.any_eq_false]
  intro p hp
  rw [List.mem_filter] at hp
  simpa using hp.2

/-- Writing a key makes it present. -/
theorem hasKey_setConns_self (m : ConnectionManager) (t : Nat)
    (l : List Nat) : hasKey (setConns m t l) t = true := by
  unfold setConns
  by_cases hk : hasKey m t = true
  · rw [if_pos hk]
    unfold hasKey at *
    obtain ⟨x, hx, hpx⟩ := List.any_eq_true.mp hk
    refine List.any_eq_true.mpr ⟨(t, l), List.mem_map.mpr ⟨x, hx, ?_⟩, by simp⟩
    rw [if_pos hpx]
  · rw [if_neg hk]
    unfold hasKey
    simp

/-- Python's `list.remove` removes exactly one occurrence. -/
theorem count_removeFirst : ∀ {l l' : List Nat} {c : Nat},
    removeFirst l c = some l' → l.count c = l'.count c + 1 := by
  intro l
  induction l with
  | nil =>
    intro l' c h
    exact Option.noConfusion h
  | cons x xs ih =>
    intro l' c h
    unfold removeFirst at h
    by_cases hx : (x == c) = true
    · rw [if_pos hx] at h
      injection h with h
      subst h
      simp [List.count_cons, hx]
    · rw [if_neg hx] at h
      cases hr : removeFirst xs c with
      | none =>
        rw [hr] at h
        simp at h
      | some ys =>
        rw [hr] at h
        simp at h
        subst h
        simp [List.count_cons, hx, ih hr]

/-! ### C8 -/

/-- Counterexample to C8 as stated: subscribing connection 5 to trip 1
twice leaves the hub with the subscriber list `[5, 5]`, not the
single-subscription state `[5]` — `connect` appends unconditionally. -/
theorem C8_subscribe_not_idempotent :
    connect (connect emptyHub 5 1) 5 1 ≠ connect emptyHub 5 1 := by decide

/-- C8 (amended): `subscribe` is not an idempotent add — it always
appends the connection to the trip's subscriber list, so subscribing an
already-registered connection registers a duplicate. -/
theorem C8_subscribe_appends (m : ConnectionManager) (c t : Nat) :
    lookupConns (connect m c t) t =
      some (((lookupConns m t).getD []) ++ [c]) := by
  unfold connect
  by_cases hk : hasKey m t = true
  · simp only [if_pos hk]
    exact lookup_setConns_self m t _
  · simp only [if_neg hk]
    rw [lookup_setConns_self]
    rw [lookup_setConns_self, lookup_none_of_hasKey_false m t
      (by simpa using hk)]
    rfl

/-! ### C9 -/

/-- Counterexample to C9 as stated: from the reachable hub state where
connection 5 subscribed to trip 1 twice, one `unsubscribe` removes only
the first registration, and the next broadcast still delivers to 5. -/
theorem C9_unsubscribe_still_delivers :
    disconnect (connect (connect emptyHub 5 1) 5 1) 5 1
        = some (connect emptyHub 5 1) ∧
      deliversTo (connect emptyHub 5 1) 1 5 = true := by decide

/-- C9 (amended): after a successful `unsubscribe(c, t)`, if `c` was
registered at most once under `t`, a subsequent broadcast for `t` never
delivers to `c`; and if `c` was the sole registered subscriber of `t`,
the trip's entry is pruned from the mapping. -/
theorem C9_unsubscribe_spec (m : ConnectionManager) (c t : Nat) :
    ((((lookupConns m t).getD []).count c ≤ 1 →
      ∀ m', disconnect m c t = some m' → deliversTo m' t c = false) ∧
     (lookupConns m t = some [c] →
      ∃ m', disconnect m c t = some m' ∧ hasKey m' t = false)) := by
  constructor
  · intro hcnt m' hm'
    unfold disconnect at hm'
    by_cases hk : hasKey m t = true
    · rw [if_pos hk] at hm'
      cases hr : removeFirst ((lookupConns m t).getD []) c with
      | none =>
        rw [hr] at hm'
        simp at hm'
      | some l' =>
        rw [hr] at hm'
        simp only [Option.some.injEq] at hm'
        subst hm'
        have hc0 : l'.count c = 0 := by
          have := count_removeFirst hr
          omega
        have hnotmem : c ∉ l' := by
          exact List.count_eq_zero.mp hc0
        by_cases he : l'.isEmpty = true
        · rw [if_pos he]
          unfold deliversTo broadcastTargets
          rw [hasKey_delKey]
          simp
        · rw [if_neg he]
          unfold deliversTo broadcastTargets
          rw [hasKey_setConns_self, if_pos rfl, lookup_setConns_self]
          simpa using hnotmem
    · rw [if_neg hk] at hm'
      simp only [Option.some.injEq] at hm'
      subst hm'
      unfold deliversTo broadcastTargets
      rw [if_neg hk]
      rfl
  · intro hl
    have hk : hasKey m t = true := by
      by_contra hk
      rw [lookup_none_of_hasKey_false m t (by simpa using hk)] at hl
      cases hl
    refine ⟨delKey m t, ?_, hasKey_delKey m t⟩
    unfold disconnect
    rw [if_pos hk, hl]
    simp [removeFirst]

/-- Witness for C9: connection 5 subscribed exactly once to trip 1; after
unsubscribing, broadcasts do not reach it and the entry is pruned. -/
theorem C9_unsubscribe_spec_witness :
    ((((lookupConns (connect emptyHub 5 1) 1).getD []).count 5 ≤ 1) ∧
      lookupConns (connect emptyHub 5 1) 1 = some [5]) ∧
    (∀ m', disconnect (connect emptyHub 5 1) 5 1 = some m' →
      deliversTo m' 1 5 = false) ∧
    (∃ m', disconnect (connect emptyHub 5 1) 5 1 = some m' ∧
      hasKey m' 1 = false) :=
  ⟨⟨by decide, by decide⟩,
   (C9_unsubscribe_spec (connect emptyHub 5 1) 5 1).1 (by decide),
   (C9_unsubscribe_spec (connect emptyHub 5 1) 5 1).2 (by decide)⟩

end Carpool
